import Mathlib

/-
Verification of the RAG pipeline in src/main.py (Streamlit + MongoDB Atlas +
LlamaIndex).  The program is a thin sequence of calls into external services
(embedding provider, vector store, document loader, generation).  We embed the
repository's own control flow faithfully: every external call is represented by
its outcome (an `Except PyError` value supplied as input), and the Python
`try`/`except` structure of each function in src/main.py is translated directly.
Outcomes of calls whose code lives in external libraries (llama_index, pymongo)
are oracle inputs; where the claims need the behaviour of such a call, it is
modelled from the spec and marked as such in the doc comment.
-/

namespace RAGAtlas

/-- A raised Python exception, identified by its kind and message. -/
inductive PyError where
  | valueError (msg : String)
  | connectionFailure (msg : String)
  | otherError (msg : String)
deriving Repr, DecidableEq

/-- Python truthiness of an optional string (`os.getenv` result): `not mongo_uri`
is true when the variable is absent or set to the empty string. -/
def pyFalsyOptStr : Option String → Bool
  | none => true
  | some s => s == ""

/-- Python truthiness of a string: a `str` is truthy iff it is nonempty. -/
def pyTruthyStr (s : String) : Bool := !(s == "")

/-- The process environment at startup: the value of `MONGODB_URI`, if set. -/
structure Env where
  mongoUri : Option String
deriving Repr, DecidableEq

/-- Outcomes of the external calls made at module level during startup:
the `ismaster` liveness probe (pymongo), the `OpenAIEmbedding` constructor and
the `MongoDBAtlasVectorSearch` constructor. -/
structure StartupExt where
  ismaster : Except PyError Unit
  embedModelInit : Except PyError Unit
  vectorStoreInit : Except PyError Unit

/-- src/main.py lines 17-31 (`initialize_mongodb`): read `MONGODB_URI`; if it is
falsy raise `ValueError("MONGODB_URI not found in environment variables")`;
otherwise build the client and run the `ismaster` probe, re-raising a
`ConnectionFailure` after logging it.  The returned handle is modelled by the
URI it was built from. -/
def initialize_mongodb (env : Env) (ext : StartupExt) : Except PyError String :=
  if pyFalsyOptStr env.mongoUri then
    .error (.valueError "MONGODB_URI not found in environment variables")
  else
    match env.mongoUri with
    | none => .error (.valueError "MONGODB_URI not found in environment variables")
    | some uri =>
      match ext.ismaster with
      | .ok _ => .ok uri
      | .error e => .error e

/-- src/main.py lines 43-51 (`initialize_embed_model`): construct the
`OpenAIEmbedding` model; on failure the exception is logged and re-raised. -/
def initialize_embed_model (ext : StartupExt) : Except PyError Unit :=
  match ext.embedModelInit with
  | .ok _ => .ok ()
  | .error e => .error e

/-- src/main.py lines 56-58: `Settings.chunk_size = 100`. -/
def chunk_size : Nat := 100

/-- src/main.py lines 56-58: `Settings.chunk_overlap = 10`. -/
def chunk_overlap : Nat := 10

/-- The configuration the `MongoDBAtlasVectorSearch` adapter is constructed
with at src/main.py lines 64-70.  Note `exact` is the STRING `"True"`, exactly
as passed in the source. -/
structure VectorStoreConfig where
  db_name : String
  collection_name : String
  vector_index_name : String
  exact : String
deriving Repr, DecidableEq

/-- src/main.py lines 61-75 (`initialize_vector_store`): construct the
`MongoDBAtlasVectorSearch` adapter with db "Lorenzo", collection "RAG", index
"vector_index" and `exact="True"`; on constructor failure the exception is
logged and re-raised. -/
def initialize_vector_store (ext : StartupExt) : Except PyError VectorStoreConfig :=
  match ext.vectorStoreInit with
  | .ok _ =>
    .ok { db_name := "Lorenzo", collection_name := "RAG",
          vector_index_name := "vector_index", exact := "True" }
  | .error e => .error e

/-- The module-level state reached when startup completes: the connection
handle, the vector store configuration, and the fact that the UI title
(src/main.py line 152, `st.title`) has been rendered. -/
structure AppState where
  client : String
  storeConfig : VectorStoreConfig
  uiTitleRendered : Bool
deriving Repr, DecidableEq

/-- src/main.py module level, lines 14-152 in order: `initialize_mongodb`
(line 34), the embedding model (line 54), the `Settings` assignments, the
vector store (line 78), the storage context, and finally `st.title` (line 152),
which is the first UI rendering.  An exception raised by any earlier step
propagates and aborts the module run before the UI is rendered, which the
`Except` bind models. -/
def startup (env : Env) (ext : StartupExt) : Except PyError AppState := do
  let client ← initialize_mongodb env ext
  let _ ← initialize_embed_model ext
  let cfg ← initialize_vector_store ext
  pure { client := client, storeConfig := cfg, uiTitleRendered := true }

/-- A retrieved source node as the code reads it: `node_with_score.node.get_content()`
yields the chunk text, and the node carries a similarity score. -/
structure Node where
  content : String
  score : Int
deriving Repr, DecidableEq

/-- Outcomes of the external calls the retrieval pipeline makes for one query:
embedding the query, the top-k vector search, and the answer generation step. -/
structure RetrievalExt where
  embedQuery : Except PyError (List Int)
  searchTopK : Nat → Except PyError (List Node)
  generate : List Node → Except PyError String

/-- src/main.py line 132: `similarity_top_k=3` passed to `as_query_engine`. -/
def similarity_top_k : Nat := 3

/-- Modelled from the spec (section 4.5 steps 2-4): the call
`index.as_query_engine(similarity_top_k=k).query(q)` embeds the query, requests
the top-k nearest records from the vector store, and composes an answer from the
retrieved chunks by a generation step.  The engine internals live in the
llama_index library, outside this repository; a failure of any step propagates
out of the call, which the `Except` bind models. -/
def queryEngineQuery (ext : RetrievalExt) (topK : Nat) :
    Except PyError (String × List Node) := do
  let _v ← ext.embedQuery
  let nodes ← ext.searchTopK topK
  let ans ← ext.generate nodes
  pure (ans, nodes)

/-- src/main.py lines 128-149 (`search_and_answer_with_top_blocks`): run the
query engine with `similarity_top_k = 3`; on success return the response text
and the contents of the first three source nodes; any exception raised inside
the `try` block is caught and converted to the sentinel pair
`("Error: Unable to process the query", [])`. -/
def search_and_answer_with_top_blocks (ext : RetrievalExt) : String × List String :=
  match queryEngineQuery ext similarity_top_k with
  | .ok (resp, nodes) => (resp, (nodes.take 3).map Node.content)
  | .error _ => ("Error: Unable to process the query", [])

/-- Whether `pat` is a prefix of `s`, on character lists. -/
def hasPrefixL : List Char → List Char → Bool
  | _, [] => true
  | [], _ :: _ => false
  | a :: as, b :: bs => a == b && hasPrefixL as bs

/-- Whether `pat` occurs as a contiguous substring of `s`, on character lists. -/
def hasSubstr : List Char → List Char → Bool
  | [], pat => pat.isEmpty
  | a :: as, pat => hasPrefixL (a :: as) pat || hasSubstr as pat

/-- The Python membership test `pat in s` on strings: substring containment. -/
def pyInStr (pat s : String) : Bool := hasSubstr s.data pat.data

/-- What the query branch of the page renders for the user. `nothing` means the
branch body never ran, so no answer, error box or source block was rendered. -/
inductive QueryRendered where
  | nothing
  | errorBox (msg : String)
  | answerWith (answer : String) (blocks : List String)
  | answerNoSources (answer : String)
deriving Repr, DecidableEq

/-- src/main.py lines 172-182: if the answer contains the substring "Error" it
is rendered with `st.error` and no source block is shown; otherwise the answer
is written, followed by each block stripped of surrounding whitespace
(`block.strip()` at line 180), or "No sources found." when the list is empty. -/
def renderAnswer (answer : String) (top_blocks : List String) : QueryRendered :=
  if pyInStr "Error" answer then .errorBox answer
  else if top_blocks.isEmpty then .answerNoSources answer
  else .answerWith answer (top_blocks.map String.trim)

/-- src/main.py lines 116-125 (`load_index`): build the index from the vector
store; any exception is caught, logged, and turned into `None`.  A loaded index
is modelled by the retrieval behaviour it gives the query engine. -/
def load_index (fromVectorStore : Except PyError RetrievalExt) : Option RetrievalExt :=
  match fromVectorStore with
  | .ok i => some i
  | .error _ => none

/-- src/main.py lines 168-182 (module-level query branch): the body runs only
when `query and index` is truthy, i.e. the query string is nonempty AND
`load_index` returned a usable index; otherwise nothing at all is rendered. -/
def queryBranch (query : String) (index : Option RetrievalExt) : QueryRendered :=
  match index with
  | some ext =>
    if pyTruthyStr query then
      renderAnswer (search_and_answer_with_top_blocks ext).1
        (search_and_answer_with_top_blocks ext).2
    else .nothing
  | none => .nothing

/-- A retrieval run whose query-embedding call fails (e.g. provider rate
limit); the later steps are irrelevant. -/
def extEmbedFailExample : RetrievalExt :=
  { embedQuery := .error (.otherError "EmbeddingProviderError: rate limited")
  , searchTopK := fun _ => .ok []
  , generate := fun _ => .ok "unused" }

/-- A retrieval run in which every step succeeds: the search returns four
nodes and generation produces an answer. -/
def extSuccessExample : RetrievalExt :=
  { embedQuery := .ok [1, 2]
  , searchTopK := fun _ => .ok [⟨" alpha ", 9⟩, ⟨"beta", 8⟩, ⟨"gamma", 7⟩, ⟨"delta", 6⟩]
  , generate := fun _ => .ok "An answer about alpha." }

/-- Outcomes of the external calls one `process_pdf` run makes: writing the
uploaded bytes to the staged temporary file, `SimpleDirectoryReader.load_data`
(extraction; the list of loaded documents), and
`VectorStoreIndex.from_documents` + `persist` (embedding and persisting). -/
structure IngestExt where
  writeTemp : Except PyError Unit
  loadData : Except PyError (List String)
  buildAndPersist : Except PyError Unit

/-- What one `process_pdf` call leaves behind: the Python-level result (the
return value `len(documents)`, or the re-raised exception) and whether the
staged temporary file still exists on disk when the call exits. -/
structure IngestOutcome where
  result : Except PyError Nat
  tempFileExists : Bool
deriving Repr

/-- src/main.py lines 82-105 (`process_pdf`): `NamedTemporaryFile(delete=False)`
creates the temporary file, which survives the `with` block; then extraction,
then index build + persist, then `os.unlink(temp_file_path)`, then
`return len(documents)`.  The `except` clause only logs and re-raises, so on
any failure the function exits before `os.unlink` runs and the temporary file
is still on disk. -/
def process_pdf (ext : IngestExt) : IngestOutcome :=
  match ext.writeTemp with
  | .error e => { result := .error e, tempFileExists := true }
  | .ok _ =>
    match ext.loadData with
    | .error e => { result := .error e, tempFileExists := true }
    | .ok documents =>
      match ext.buildAndPersist with
      | .error e => { result := .error e, tempFileExists := true }
      | .ok _ => { result := .ok documents.length, tempFileExists := false }

/-- What `check_vector_store` prints: the document count on success, or the
caught error. -/
inductive CountLog where
  | debugCount (n : Nat)
  | errorCount (e : PyError)
deriving Repr, DecidableEq

/-- src/main.py lines 108-114 (`check_vector_store`): run
`collection.count_documents({})`; print the count on success; on any exception
print the error and fall through — the function returns normally either way and
never re-raises.  The first component is the Python-level result of the call
(normal return vs. raised exception); the second is what was logged. -/
def check_vector_store (countDocuments : Except PyError Nat) :
    Except PyError Unit × CountLog :=
  match countDocuments with
  | .ok n => (.ok (), .debugCount n)
  | .error e => (.ok (), .errorCount e)

/-- What the upload branch of the page renders for the user. -/
inductive UploadRendered where
  | successMsg (numDocuments : Nat)
  | errorMsg (e : PyError)
deriving Repr, DecidableEq

/-- src/main.py lines 154-164 (module-level upload branch): if a file was
uploaded, run `process_pdf` inside `try`; on success render `st.success` and
run `check_vector_store`; any exception is caught by `except Exception` and
rendered with `st.error`.  The outer `Except` is the Python-level outcome of
running the whole branch: `.ok` means no exception escaped it. -/
def uploadBranch (uploaded_file : Option IngestExt)
    (countDocuments : Except PyError Nat) :
    Except PyError (Option UploadRendered) :=
  match uploaded_file with
  | none => .ok none
  | some ext =>
    match (process_pdf ext).result with
    | .ok n =>
      match check_vector_store countDocuments with
      | (.ok _, _) => .ok (some (.successMsg n))
      | (.error e, _) => .error e
    | .error e => .ok (some (.errorMsg e))

/-- src/main.py lines 154-182 (the whole per-rerun request handling after
startup): the upload branch, then `load_index`, then the query branch.  The
outer `Except` is the Python-level outcome of the rerun: `.ok` means no
per-request exception escaped to crash the process. -/
def pageRun (uploaded_file : Option IngestExt)
    (countDocuments : Except PyError Nat)
    (loadResult : Except PyError RetrievalExt) (query : String) :
    Except PyError (Option UploadRendered × QueryRendered) := do
  let ur ← uploadBranch uploaded_file countDocuments
  let qr := queryBranch query (load_index loadResult)
  pure (ur, qr)

/-- Modelled from the spec (section 4.4 state `Chunked`): the pure fixed-window
split the chunker configuration selects, on an arbitrary sequence of text
units.  A window of `size` units is taken, then the window start advances by
`step = size - overlap` units, until the remaining text fits in one window.
The chunking implementation itself lives in the llama_index library, outside
this repository; src/main.py only fixes its parameters at lines 56-58.  The
fuel argument bounds the recursion by the text length. -/
def fixedWindowSplitAux {α : Type} (size step : Nat) : Nat → List α → List (List α)
  | 0, text => [text]
  | fuel + 1, text =>
    if text.length ≤ size then [text]
    else text.take size :: fixedWindowSplitAux size step fuel (text.drop step)

/-- Modelled from the spec (section 4.4 state `Chunked`): the fixed-window
split of a text into overlapping chunks of `size` units advancing by
`size - overlap` units. -/
def fixedWindowSplit {α : Type} (size overlap : Nat) (text : List α) : List (List α) :=
  fixedWindowSplitAux size (size - overlap) text.length text

/-- The chunking the ingestion pipeline configures at src/main.py lines 56-58:
fixed-window split with `Settings.chunk_size = 100` and
`Settings.chunk_overlap = 10`. -/
def chunkText {α : Type} (text : List α) : List (List α) :=
  fixedWindowSplit chunk_size chunk_overlap text

/-- Modelled from the spec (section 4.3): a search request issued through the
vector store adapter; exact-match mode is requested iff the configured `exact`
flag is truthy. -/
structure SearchRequest where
  queryVector : List Int
  top_k : Nat
  exactMode : Bool
deriving Repr, DecidableEq

/-- Modelled from the spec (section 4.3): how the adapter built by
`initialize_vector_store` issues a search: the exact-match mode of every
request is the truthiness of the configured `exact` flag. -/
def mkSearchRequest (cfg : VectorStoreConfig) (v : List Int) (k : Nat) : SearchRequest :=
  { queryVector := v, top_k := k, exactMode := pyTruthyStr cfg.exact }

/-- An ingestion run whose extraction step fails (unreadable PDF). -/
def ingestExtractFailExample : IngestExt :=
  { writeTemp := .ok ()
  , loadData := .error (.otherError "ExtractionError: unreadable PDF")
  , buildAndPersist := .ok () }

/-- An ingestion run in which every step succeeds, loading two documents. -/
def ingestSuccessExample : IngestExt :=
  { writeTemp := .ok ()
  , loadData := .ok ["page one text", "page two text"]
  , buildAndPersist := .ok () }

end RAGAtlas

open RAGAtlas

/-- C4: if the database connection string environment variable (`MONGODB_URI`)
is absent at process start, startup raises the configuration `ValueError`
before any UI is rendered: for every outcome of the other external calls,
`startup` is exactly this error, and no `AppState` (hence no connection handle
and no rendered UI, and no later pipeline step) is ever produced. -/
theorem C4_missing_uri_fails_startup (ext : StartupExt) :
    startup { mongoUri := none } ext =
      .error (.valueError "MONGODB_URI not found in environment variables") ∧
    ∀ s : AppState, startup { mongoUri := none } ext ≠ .ok s := by
  constructor
  · rfl
  · intro s h
    simp [startup, initialize_mongodb, pyFalsyOptStr, Bind.bind, Except.bind] at h

/-- C1: for every query, a failure of any step of the retrieval pipeline run
(query embedding, top-K search, or answer generation — the first conjunct
characterises exactly when the engine run fails) makes
`search_and_answer_with_top_blocks` return exactly the pair
`("Error: Unable to process the query", [])`; the function is total, so no
exception escapes this boundary. -/
theorem C1_failure_yields_sentinel (ext : RetrievalExt) :
    ((∃ e, queryEngineQuery ext similarity_top_k = .error e) ↔
      (∃ e, ext.embedQuery = .error e) ∨
      (∃ v e, ext.embedQuery = .ok v ∧ ext.searchTopK similarity_top_k = .error e) ∨
      (∃ v ns e, ext.embedQuery = .ok v ∧ ext.searchTopK similarity_top_k = .ok ns ∧
        ext.generate ns = .error e)) ∧
    (∀ e, queryEngineQuery ext similarity_top_k = .error e →
      search_and_answer_with_top_blocks ext = ("Error: Unable to process the query", [])) := by
  cases h1 : ext.embedQuery with
  | error e1 =>
    constructor
    · simp [queryEngineQuery, h1, Bind.bind, Except.bind]
    · intro e he
      simp [search_and_answer_with_top_blocks, he]
  | ok v1 =>
    cases h2 : ext.searchTopK similarity_top_k with
    | error e2 =>
      constructor
      · simp [queryEngineQuery, h1, h2, Bind.bind, Except.bind]
      · intro e he
        simp [search_and_answer_with_top_blocks, he]
    | ok ns =>
      cases h3 : ext.generate ns with
      | error e3 =>
        constructor
        · simp [queryEngineQuery, h1, h2, h3, Bind.bind, Except.bind]
        · intro e he
          simp [search_and_answer_with_top_blocks, he]
      | ok ans =>
        constructor
        · simp [queryEngineQuery, h1, h2, h3, Bind.bind, Except.bind, Pure.pure, Except.pure]
        · intro e he
          simp [search_and_answer_with_top_blocks, he]

/-- C1 witness: with a concrete failing embedding call the sentinel pair is
returned. -/
theorem C1_failure_yields_sentinel_witness :
    search_and_answer_with_top_blocks extEmbedFailExample =
      ("Error: Unable to process the query", []) :=
  (C1_failure_yields_sentinel extEmbedFailExample).2
    (.otherError "EmbeddingProviderError: rate limited") rfl

/-- C5: for every successful retrieval, the engine is asked for the top 3
nearest records (`similarity_top_k = 3`), the returned pair is the generated
answer together with the contents of at most the first 3 source nodes in
order, and the page renders each of those blocks whitespace-trimmed and
otherwise verbatim. -/
theorem C5_success_returns_top3_blocks (ext : RetrievalExt) (resp : String)
    (nodes : List Node)
    (h : queryEngineQuery ext similarity_top_k = .ok (resp, nodes)) :
    similarity_top_k = 3 ∧
    search_and_answer_with_top_blocks ext = (resp, (nodes.take 3).map Node.content) ∧
    (search_and_answer_with_top_blocks ext).2.length ≤ 3 ∧
    (pyInStr "Error" resp = false → (nodes.take 3).map Node.content ≠ [] →
      renderAnswer resp ((nodes.take 3).map Node.content) =
        .answerWith resp (((nodes.take 3).map Node.content).map String.trim)) := by
  refine ⟨rfl, ?_, ?_, ?_⟩
  · simp [search_and_answer_with_top_blocks, h]
  · simp only [search_and_answer_with_top_blocks, h]
    calc ((nodes.take 3).map Node.content).length = (nodes.take 3).length := by
          simp
      _ ≤ 3 := by simp [List.length_take]
  · intro hne hblocks
    have hb : ((nodes.take 3).map Node.content).isEmpty = false := by
      cases hx : (nodes.take 3).map Node.content with
      | nil => exact absurd hx hblocks
      | cons a t => rfl
    simp only [renderAnswer, hne, hb, Bool.false_eq_true, if_false]

/-- C5 witness: a concrete successful run with four retrieved nodes returns
the answer and exactly the first three node contents, in order. -/
theorem C5_success_returns_top3_blocks_witness :
    search_and_answer_with_top_blocks extSuccessExample =
      ("An answer about alpha.", [" alpha ", "beta", "gamma"]) :=
  (C5_success_returns_top3_blocks extSuccessExample "An answer about alpha."
    [⟨" alpha ", 9⟩, ⟨"beta", 8⟩, ⟨"gamma", 7⟩, ⟨"delta", 6⟩] rfl).2.1

/-- C9: the page renders the result of `search_and_answer_with_top_blocks` as
an error box, suppressing every source block, exactly when the answer string
contains the substring "Error"; consequently even a successfully generated
answer containing "Error" is displayed as a failure with no sources. -/
theorem C9_error_substring_controls_rendering (answer : String) (blocks : List String) :
    ((∃ m, renderAnswer answer blocks = .errorBox m) ↔ pyInStr "Error" answer = true) ∧
    (pyInStr "Error" answer = true → renderAnswer answer blocks = .errorBox answer) ∧
    (∀ (ext : RetrievalExt) (resp : String) (nodes : List Node),
      queryEngineQuery ext similarity_top_k = .ok (resp, nodes) →
      pyInStr "Error" resp = true →
      renderAnswer (search_and_answer_with_top_blocks ext).1
        (search_and_answer_with_top_blocks ext).2 = .errorBox resp) := by
  refine ⟨?_, ?_, ?_⟩
  · constructor
    · rintro ⟨m, hm⟩
      by_contra hc
      rw [Bool.not_eq_true] at hc
      by_cases hb : blocks.isEmpty <;> simp [renderAnswer, hc, hb] at hm
    · intro hc
      exact ⟨answer, by simp [renderAnswer, hc]⟩
  · intro hc
    simp [renderAnswer, hc]
  · intro ext resp nodes hok hc
    simp [search_and_answer_with_top_blocks, hok, renderAnswer, hc]

/-- C9 witness: a successful answer that merely mentions "Error" is shown as
an error box and its source blocks are suppressed. -/
theorem C9_error_substring_controls_rendering_witness :
    renderAnswer "The Error code discussed is 404." ["some source block"] =
      .errorBox "The Error code discussed is 404." :=
  (C9_error_substring_controls_rendering "The Error code discussed is 404."
    ["some source block"]).2.1 (by decide)

/-- C3 counterexample: with a nonempty query and an index load that fails
(`load_index` returns `None`), the module-level query branch is skipped
entirely: nothing is rendered, and in particular the sentinel
`("Error: Unable to process the query", [])` is NOT returned to the user. -/
theorem C3_counterexample_no_sentinel_without_index :
    queryBranch "What is this document about?"
        (load_index (.error (.otherError "no usable index"))) = .nothing ∧
    queryBranch "What is this document about?"
        (load_index (.error (.otherError "no usable index"))) ≠
      .errorBox "Error: Unable to process the query" := by
  exact ⟨rfl, by decide⟩

/-- C3 amended: when index loading yields no usable index (`load_index`
returns `None`), the query branch is skipped and nothing is rendered for the
user; the sentinel error tuple reaches the user only when a usable index was
loaded and a step of the query pipeline then fails. -/
theorem C3_amended_sentinel_only_with_index (q : String) (hq : pyTruthyStr q = true) :
    (∀ loadFail : PyError,
      queryBranch q (load_index (.error loadFail)) = .nothing) ∧
    (∀ (ext : RetrievalExt) (e : PyError),
      queryEngineQuery ext similarity_top_k = .error e →
      queryBranch q (some ext) = .errorBox "Error: Unable to process the query") := by
  constructor
  · intro loadFail
    rfl
  · intro ext e he
    have hs : search_and_answer_with_top_blocks ext =
        ("Error: Unable to process the query", []) := by
      simp [search_and_answer_with_top_blocks, he]
    have hin : pyInStr "Error" "Error: Unable to process the query" = true := by decide
    simp [queryBranch, hq, hs, renderAnswer, hin]

/-- C3 amended witness: with a concrete nonempty query and a concrete index
whose query pipeline fails, the user sees the sentinel error box. -/
theorem C3_amended_sentinel_only_with_index_witness :
    queryBranch "What is this document about?" (some extEmbedFailExample) =
      .errorBox "Error: Unable to process the query" :=
  (C3_amended_sentinel_only_with_index "What is this document about?" (by decide)).2
    extEmbedFailExample (.otherError "EmbeddingProviderError: rate limited") rfl

/-- C2 counterexample: when extraction fails, `process_pdf` exits by the
re-raising `except` clause and the staged temporary file is NOT deleted — it
is still on disk at exit, refuting cleanup on every exit path. -/
theorem C2_counterexample_temp_file_leaks_on_failure :
    (process_pdf ingestExtractFailExample).tempFileExists = true ∧
    (process_pdf ingestExtractFailExample).result =
      .error (.otherError "ExtractionError: unreadable PDF") :=
  ⟨rfl, rfl⟩

/-- C2 amended: the staged temporary file is deleted exactly on the success
path; on every failing run (staging write, extraction, embedding or
persisting) the exception propagates before `os.unlink` runs and the file is
left on disk. -/
theorem C2_amended_temp_file_deleted_iff_success (ext : IngestExt) :
    (process_pdf ext).tempFileExists = false ↔
      ∃ n, (process_pdf ext).result = .ok n := by
  cases h1 : ext.writeTemp with
  | error e => simp [process_pdf, h1]
  | ok _ =>
    cases h2 : ext.loadData with
    | error e => simp [process_pdf, h1, h2]
    | ok docs =>
      cases h3 : ext.buildAndPersist with
      | error e => simp [process_pdf, h1, h2, h3]
      | ok _ => simp [process_pdf, h1, h2, h3]

/-- C2 amended witness: a fully successful run does delete the temporary
file. -/
theorem C2_amended_temp_file_deleted_iff_success_witness :
    (process_pdf ingestSuccessExample).tempFileExists = false :=
  (C2_amended_temp_file_deleted_iff_success ingestSuccessExample).mpr ⟨2, rfl⟩

/-- C7 counterexample: a backend error raised by the post-ingestion `count()`
check is swallowed by `check_vector_store` — the call returns normally (the
error is only logged), so the error is NOT surfaced to the caller. -/
theorem C7_counterexample_count_error_swallowed :
    (check_vector_store (.error (.otherError "StoreError: backend timeout"))).1 =
      .ok () ∧
    (check_vector_store (.error (.otherError "StoreError: backend timeout"))).2 =
      .errorCount (.otherError "StoreError: backend timeout") :=
  ⟨rfl, rfl⟩

/-- C7 amended: backend errors raised by store operations during ingestion
(`process_pdf`, which re-raises) are surfaced to the caller, but an error from
the post-ingestion `count()` observability check is caught inside
`check_vector_store`, logged, and never surfaced: the call always returns
normally. -/
theorem C7_amended_count_errors_logged_not_surfaced :
    (∀ c : Except PyError Nat, (check_vector_store c).1 = .ok ()) ∧
    (∀ e : PyError, (check_vector_store (.error e)).2 = .errorCount e) ∧
    (∀ (docs : List String) (e : PyError),
      (process_pdf { writeTemp := .ok (), loadData := .ok docs,
                     buildAndPersist := .error e }).result = .error e) := by
  refine ⟨?_, ?_, ?_⟩
  · intro c
    cases c <;> rfl
  · intro e
    rfl
  · intro docs e
    rfl

/-- Helper: the upload branch never lets an exception escape — `process_pdf`
failures are caught at line 163 and `check_vector_store` returns normally. -/
theorem uploadBranch_total (uf : Option IngestExt) (cd : Except PyError Nat) :
    ∃ r, uploadBranch uf cd = .ok r := by
  cases uf with
  | none => exact ⟨none, rfl⟩
  | some ext =>
    cases h : (process_pdf ext).result with
    | ok n =>
      cases cd with
      | ok m =>
        exact ⟨some (.successMsg n), by simp [uploadBranch, h, check_vector_store]⟩
      | error e =>
        exact ⟨some (.successMsg n), by simp [uploadBranch, h, check_vector_store]⟩
    | error e =>
      exact ⟨some (.errorMsg e), by simp [uploadBranch, h]⟩

/-- C8: after startup, no per-request error crashes the process: for every
uploaded file, count outcome, index-load outcome and query, the whole rerun
(`pageRun`) completes without an escaping exception, and a failing ingestion
in particular is converted into the user-facing `errorMsg`. -/
theorem C8_no_request_error_crashes_process
    (uploaded_file : Option IngestExt) (countDocuments : Except PyError Nat)
    (loadResult : Except PyError RetrievalExt) (query : String) :
    (∃ out, pageRun uploaded_file countDocuments loadResult query = .ok out) ∧
    (∀ (ext : IngestExt) (e : PyError),
      uploaded_file = some ext → (process_pdf ext).result = .error e →
      pageRun uploaded_file countDocuments loadResult query =
        .ok (some (.errorMsg e), queryBranch query (load_index loadResult))) := by
  constructor
  · obtain ⟨r, hr⟩ := uploadBranch_total uploaded_file countDocuments
    exact ⟨(r, queryBranch query (load_index loadResult)),
      by simp [pageRun, hr, Bind.bind, Except.bind, Pure.pure, Except.pure]⟩
  · intro ext e hup hpe
    subst hup
    have hub : uploadBranch (some ext) countDocuments = .ok (some (.errorMsg e)) := by
      simp [uploadBranch, hpe]
    simp [pageRun, hub, Bind.bind, Except.bind, Pure.pure, Except.pure]

/-- C8 witness: a concrete rerun with a failing ingestion and a failing index
load still completes normally, rendering the user-facing error message. -/
theorem C8_no_request_error_crashes_process_witness :
    pageRun (some ingestExtractFailExample) (.ok 5)
        (.error (.otherError "index backend down")) "What is this?" =
      .ok (some (.errorMsg (.otherError "ExtractionError: unreadable PDF")),
           .nothing) :=
  (C8_no_request_error_crashes_process (some ingestExtractFailExample) (.ok 5)
    (.error (.otherError "index backend down")) "What is this?").2
    ingestExtractFailExample (.otherError "ExtractionError: unreadable PDF") rfl rfl

/-- The fixed-window split never returns an empty list of chunks. -/
theorem fixedWindowSplitAux_ne_nil {α : Type} (size step fuel : Nat) (text : List α) :
    fixedWindowSplitAux size step fuel text ≠ [] := by
  cases fuel with
  | zero => simp [fixedWindowSplitAux]
  | succ f =>
    by_cases h : text.length ≤ size <;> simp [fixedWindowSplitAux, h]

/-- Every chunk of the fixed-window split except the last has length exactly
`size`, and the last chunk has length at most `size` (fuel bounds the text). -/
theorem fixedWindowSplitAux_chunk_lengths {α : Type} (size step : Nat)
    (hstep : 1 ≤ step) :
    ∀ (fuel : Nat) (text : List α), text.length ≤ fuel →
      (∀ c ∈ (fixedWindowSplitAux size step fuel text).dropLast, c.length = size) ∧
      (∀ c, (fixedWindowSplitAux size step fuel text).getLast? = some c →
        c.length ≤ size) := by
  intro fuel
  induction fuel with
  | zero =>
    intro text htext
    have hnil : text = [] := List.eq_nil_of_length_eq_zero (Nat.le_zero.mp htext)
    subst hnil
    constructor
    · intro c hc
      simp [fixedWindowSplitAux] at hc
    · intro c hc
      simp [fixedWindowSplitAux] at hc
      subst hc
      simp
  | succ f ih =>
    intro text htext
    by_cases hlen : text.length ≤ size
    · constructor
      · intro c hc
        simp [fixedWindowSplitAux, hlen] at hc
      · intro c hc
        simp [fixedWindowSplitAux, hlen] at hc
        subst hc
        exact hlen
    · push_neg at hlen
      have hrec : (text.drop step).length ≤ f := by
        simp only [List.length_drop]
        omega
      obtain ⟨ih1, ih2⟩ := ih (text.drop step) hrec
      have hne := fixedWindowSplitAux_ne_nil size step f (text.drop step)
      have hunfold : fixedWindowSplitAux size step (f + 1) text =
          text.take size :: fixedWindowSplitAux size step f (text.drop step) := by
        simp [fixedWindowSplitAux, Nat.not_le.mpr hlen]
      constructor
      · intro c hc
        rw [hunfold, List.dropLast_cons_of_ne_nil hne, List.mem_cons] at hc
        rcases hc with h | h
        · subst h
          simp only [List.length_take]
          omega
        · exact ih1 _ h
      · intro c hc
        rw [hunfold] at hc
        cases hrest : fixedWindowSplitAux size step f (text.drop step) with
        | nil => exact absurd hrest hne
        | cons b l =>
          rw [hrest, List.getLast?_cons_cons] at hc
          exact ih2 _ (hrest ▸ hc)

/-- The chunk boundaries of the fixed-window split depend only on the length
of the text, never on its content: two texts of equal length (even over
different alphabets) split into chunks of identical lengths. -/
theorem fixedWindowSplitAux_map_length {α β : Type} (size step : Nat) :
    ∀ (fuel : Nat) (s : List α) (t : List β), s.length = t.length →
      (fixedWindowSplitAux size step fuel s).map List.length =
        (fixedWindowSplitAux size step fuel t).map List.length := by
  intro fuel
  induction fuel with
  | zero =>
    intro s t h
    simp [fixedWindowSplitAux, h]
  | succ f ih =>
    intro s t h
    by_cases hlen : s.length ≤ size
    · have hlen' : t.length ≤ size := h ▸ hlen
      simp [fixedWindowSplitAux, hlen, hlen', h]
    · have hlen' : ¬ t.length ≤ size := by omega
      simp only [fixedWindowSplitAux, hlen, hlen', if_false, List.map_cons,
        List.length_take, h]
      refine congrArg _ ?_
      exact ih _ _ (by simp only [List.length_drop, h])

/-- The head chunk of a fixed-window split agrees with the text on any first
`k ≤ size` units. -/
theorem fixedWindowSplitAux_head_take {α : Type} (size step k : Nat) (hk : k ≤ size)
    (fuel : Nat) (text b : List α)
    (hb : (fixedWindowSplitAux size step fuel text).head? = some b) :
    b.take k = text.take k := by
  cases fuel with
  | zero =>
    simp [fixedWindowSplitAux] at hb
    simp [hb]
  | succ f =>
    by_cases hlen : text.length ≤ size
    · simp [fixedWindowSplitAux, hlen] at hb
      simp [hb]
    · simp [fixedWindowSplitAux, hlen] at hb
      rw [← hb, List.take_take, Nat.min_eq_left hk]

/-- Adjacent chunks of the fixed-window split overlap: the next chunk begins
with exactly the `size - step` units the previous chunk ends with. -/
theorem fixedWindowSplitAux_chain_overlap {α : Type} (size step : Nat)
    (hstep : 1 ≤ step) (hss : step ≤ size) :
    ∀ (fuel : Nat) (text : List α), text.length ≤ fuel →
      List.Chain' (fun c1 c2 => c2.take (size - step) = c1.drop step)
        (fixedWindowSplitAux size step fuel text) := by
  intro fuel
  induction fuel with
  | zero =>
    intro text htext
    simp [fixedWindowSplitAux]
  | succ f ih =>
    intro text htext
    by_cases hlen : text.length ≤ size
    · simp [fixedWindowSplitAux, hlen]
    · have hunfold : fixedWindowSplitAux size step (f + 1) text =
          text.take size :: fixedWindowSplitAux size step f (text.drop step) := by
        simp [fixedWindowSplitAux, hlen]
      rw [hunfold, List.chain'_cons']
      constructor
      · intro b hb
        have hhead := fixedWindowSplitAux_head_take size step (size - step)
          (Nat.sub_le _ _) f (text.drop step) b hb
        rw [hhead, List.drop_take]
      · exact ih _ (by simp only [List.length_drop]; omega)

/-- C6: ingestion configures chunking with fixed chunk size 100 and overlap 10
(src/main.py lines 56-58), and under the pure fixed-window split this selects
(modelled from the spec) every chunk except the last has length exactly
`chunk_size`, the final chunk has length at most `chunk_size`, chunk
boundaries depend only on the text's length and never on its content (so no
sentence or paragraph boundary is respected), and adjacent chunks overlap in
exactly `chunk_overlap` units. -/
theorem C6_fixed_window_chunking (text : List Char) :
    chunk_size = 100 ∧ chunk_overlap = 10 ∧
    (∀ c ∈ (chunkText text).dropLast, c.length = chunk_size) ∧
    (∀ c, (chunkText text).getLast? = some c → c.length ≤ chunk_size) ∧
    (∀ t : List Char, t.length = text.length →
      (chunkText t).map List.length = (chunkText text).map List.length) ∧
    List.Chain' (fun c1 c2 =>
        c2.take chunk_overlap = c1.drop (chunk_size - chunk_overlap))
      (chunkText text) := by
  have h1 : (1 : Nat) ≤ chunk_size - chunk_overlap := by decide
  have h2 : chunk_size - chunk_overlap ≤ chunk_size := by decide
  obtain ⟨ha, hb⟩ := fixedWindowSplitAux_chunk_lengths chunk_size
    (chunk_size - chunk_overlap) h1 text.length text (le_refl _)
  refine ⟨rfl, rfl, ha, hb, ?_, ?_⟩
  · intro t ht
    have hml := fixedWindowSplitAux_map_length (α := Char) (β := Char) chunk_size
      (chunk_size - chunk_overlap) t.length t text ht
    simpa [chunkText, fixedWindowSplit, ht] using hml
  · have hco : chunk_size - (chunk_size - chunk_overlap) = chunk_overlap := by decide
    have hch := fixedWindowSplitAux_chain_overlap chunk_size
      (chunk_size - chunk_overlap) h1 h2 text.length text (le_refl _)
    rw [hco] at hch
    exact hch

set_option maxRecDepth 8000 in
/-- C6 witness: a 150-unit text splits into one full chunk of length 100
followed by a final chunk of length 60, and two different 5-unit texts chunk
into identically shaped chunks. -/
theorem C6_fixed_window_chunking_witness :
    (List.replicate 100 'a').length = chunk_size ∧
    (List.replicate 60 'a').length ≤ chunk_size ∧
    (chunkText "hello".data).map List.length =
      (chunkText (List.replicate 5 'a')).map List.length :=
  ⟨(C6_fixed_window_chunking (List.replicate 150 'a')).2.2.1
      (List.replicate 100 'a') (by decide),
   (C6_fixed_window_chunking (List.replicate 150 'a')).2.2.2.1
      (List.replicate 60 'a') (by decide),
   (C6_fixed_window_chunking (List.replicate 5 'a')).2.2.2.2.1
      "hello".data (by decide)⟩

/-- C10: a successfully constructed vector store adapter always carries
`exact = "True"` (the string, as passed at src/main.py line 69); a nonempty
string is truthy in Python, so every search request built from this
configuration requests exact rather than approximate nearest-neighbor
lookup. -/
theorem C10_exact_search_mode (ext : StartupExt) (cfg : VectorStoreConfig)
    (h : initialize_vector_store ext = .ok cfg) :
    cfg.exact = "True" ∧ pyTruthyStr cfg.exact = true ∧
    (∀ (v : List Int) (k : Nat), (mkSearchRequest cfg v k).exactMode = true) := by
  cases hvs : ext.vectorStoreInit with
  | error e =>
    simp [initialize_vector_store, hvs] at h
  | ok u =>
    simp [initialize_vector_store, hvs] at h
    subst h
    refine ⟨rfl, by decide, ?_⟩
    intro v k
    rfl

/-- C10 witness: the concrete adapter built at startup issues exact-mode
search requests. -/
theorem C10_exact_search_mode_witness :
    (mkSearchRequest { db_name := "Lorenzo", collection_name := "RAG",
                       vector_index_name := "vector_index", exact := "True" }
        [1, 2] 3).exactMode
      = true :=
  (C10_exact_search_mode ⟨.ok (), .ok (), .ok ()⟩
    { db_name := "Lorenzo", collection_name := "RAG",
      vector_index_name := "vector_index", exact := "True" } rfl).2.2 [1, 2] 3

/-- C4 witness: with the connection string absent and every other external
call succeeding, startup still fails with the configuration error. -/
theorem C4_missing_uri_fails_startup_witness :
    startup { mongoUri := none } ⟨.ok (), .ok (), .ok ()⟩ =
      .error (.valueError "MONGODB_URI not found in environment variables") :=
  (C4_missing_uri_fails_startup ⟨.ok (), .ok (), .ok ()⟩).1
